import Mathlib

/-!
Shallow embedding of `traffic.py` (github-traffic): a script that reads GitHub
credentials, lists a user's repositories, fetches per-repository traffic
(views/clones) on a bounded thread pool, builds a pandas DataFrame with a
derived `combined_metrics` column, sorts/filters it, prints a table and
optionally writes a CSV.

HTTP responses are modelled as data (status plus parsed JSON body); the
thread pool's nondeterministic completion order is modelled as an arbitrary
permutation in which the result queue receives the per-repository records.
-/

namespace Traffic

/-- One entry of the per-day breakdown list in a traffic response body
(`views['views'][k]`); the code only reads its `timestamp` string. -/
structure ViewEntry where
  timestamp : String
deriving Repr, DecidableEq

/-- Parsed JSON body of a views/clones traffic response.  The Python code
treats it as a dict and uses `.get('count', 0)`, `.get('uniques', 0)` and the
optional `views` per-day list, so each key is modelled as an `Option`. -/
structure TrafficBody where
  count : Option Nat
  uniques : Option Nat
  views : Option (List ViewEntry)
deriving Repr, DecidableEq

/-- An HTTP response to a traffic endpoint: status code plus parsed body. -/
structure HttpResponse where
  status : Nat
  body : TrafficBody
deriving Repr, DecidableEq

/-- One repository object from the bulk listing; the code reads
`repo['name']`, `repo['stargazers_count']` and `repo['forks_count']`. -/
structure Repo where
  name : String
  stargazers_count : Nat
  forks_count : Nat
deriving Repr, DecidableEq

/-- The dict that `fetch_repo_traffic` puts on the result queue. -/
structure Record where
  repository : String
  views_total : Nat
  views_unique : Nat
  clones_total : Nat
  clones_unique : Nat
  stars : Nat
  forks : Nat
  date_range : Option String
deriving Repr, DecidableEq

/-- Python's `s.split('T')[0]`: the part of `s` before the first `T`
(`String.splitOn` never returns `[]`, so `headD` is exact). -/
def dateOf (s : String) : String :=
  (s.splitOn "T").headD ""

/-- What `fetch_repo_traffic` produces: the queued record together with the
status indicators shown on the progress line. -/
structure FetchOutput where
  record : Record
  views_status : String
  clones_status : String
deriving Repr, DecidableEq

/-- Embedding of `fetch_repo_traffic` (traffic.py lines 34-94).  A non-200
response on either call is replaced by the dict `{"count": 0, "uniques": 0}`;
fields are read with `.get(key, 0)`; `date_range` is built from the first and
last entries of a non-empty `views` list, else left `None`. -/
def fetch_repo_traffic (repo : Repo) (views_response clones_response : HttpResponse) :
    FetchOutput :=
  let views : TrafficBody :=
    if views_response.status ≠ 200 then { count := some 0, uniques := some 0, views := none }
    else views_response.body
  let clones : TrafficBody :=
    if clones_response.status ≠ 200 then { count := some 0, uniques := some 0, views := none }
    else clones_response.body
  let views_total := views.count.getD 0
  let views_unique := views.uniques.getD 0
  let clones_total := clones.count.getD 0
  let clones_unique := clones.uniques.getD 0
  let views_timerange : Option String :=
    match views.views with
    | some (e :: es) =>
        some (dateOf e.timestamp ++ " to " ++
              dateOf ((e :: es).getLast (List.cons_ne_nil e es)).timestamp)
    | _ => none
  { record :=
      { repository := repo.name
        views_total := views_total
        views_unique := views_unique
        clones_total := clones_total
        clones_unique := clones_unique
        stars := repo.stargazers_count
        forks := repo.forks_count
        date_range := views_timerange }
    views_status := if views_response.status = 200 then "✅" else "❌"
    clones_status := if clones_response.status = 200 then "✅" else "❌" }

/-- A DataFrame row of `traffic_df`: the queued record plus the derived
`combined_metrics` column added in `get_repo_traffic`. -/
structure Row extends Record where
  combined : ℚ
deriving Repr, DecidableEq

/-- The weighted-sum expression assigned to the `combined_metrics` column
(traffic.py lines 167-174). -/
def combined_metrics_formula (r : Record) : ℚ :=
  ((r.views_total : ℚ) * 1.0) + ((r.views_unique : ℚ) * 1.5) +
  ((r.clones_total : ℚ) * 2.0) + ((r.clones_unique : ℚ) * 3.0) +
  ((r.stars : ℚ) * 0.5) + ((r.forks : ℚ) * 1.0)

/-- Parsed JSON body of the bulk repository-listing response
(`repos = response.json()`, traffic.py line 122).  On HTTP 200 GitHub returns
a JSON array of repository objects; on failure it returns a non-empty JSON
error object such as `{"message": "Not Found", ...}`, which Python parses to
a dict. -/
inductive ReposBody where
  | list : List Repo → ReposBody
  | errorObj : String → ReposBody
deriving Repr, DecidableEq

/-- Ways the script's control flow leaves `get_repo_traffic` without a
DataFrame: the explicit `exit(1)` after a failed rate-limit check, or an
uncaught Python exception (which terminates the interpreter with a traceback
and exit status 1). -/
inductive Failure where
  | authExit : Failure
  | pyError : String → Failure
deriving Repr, DecidableEq

/-- The network environment a run sees: the rate-limit check's status, the
bulk-listing body, and each repository's views/clones responses (keyed by
repository name, as the request URLs are). -/
structure Env where
  rate_status : Nat
  repos_body : ReposBody
  views_response : String → HttpResponse
  clones_response : String → HttpResponse

/-- Draining the result queue (`while not result_queue.empty(): ... get()`):
the queue holds one record per task and yields them in the order the tasks
completed.  `order` lists the (0-based) task indices in completion order, so
the collected list is `items` read back in that order. -/
def collectQueue {α : Type} (items : List α) (order : List Nat) : List α :=
  order.filterMap (fun i => items.get? i)

/-- The record a repository's fetch task enqueues under environment `env`. -/
def fetchRecord (env : Env) (repo : Repo) : Record :=
  (fetch_repo_traffic repo (env.views_response repo.name) (env.clones_response repo.name)).record

/-- Embedding of `get_repo_traffic` (traffic.py lines 99-176).  The
rate-limit check exits on non-200.  The bulk-listing response's status is
never checked: its JSON body is used directly, and a non-empty error object
crashes at `repos[0]` with `KeyError: 0` (line 127).  The permission probe on
the first repository only prints a warning and is omitted.  Each fetch task
enqueues one record; `order` is the nondeterministic completion order in
which the queue is drained.  `pd.DataFrame([])` has no columns, so building
the `combined_metrics` column on an empty result list raises
`KeyError: 'views_total'` (line 168). -/
def get_repo_traffic (env : Env) (order : List Nat) : Except Failure (List Row) :=
  if env.rate_status ≠ 200 then .error .authExit
  else
    match env.repos_body with
    | .errorObj _ => .error (.pyError "KeyError: 0")
    | .list repos =>
        let records := repos.map (fetchRecord env)
        let traffic_data := collectQueue records order
        if traffic_data.isEmpty then .error (.pyError "KeyError: views_total")
        else .ok (traffic_data.map (fun r => { toRecord := r, combined := combined_metrics_formula r }))

/-- The parsed `credentials.ini` as configparser sees it: whether the
`[github]` section exists and which of its two options are present. -/
structure IniFile where
  has_github : Bool
  username : Option String
  token : Option String
deriving Repr, DecidableEq

/-- Ways `read_credentials` fails to return a pair: the explicit diagnostic
print followed by `exit(1)`, or an uncaught `KeyError` from
`config['github'][key]` when the section exists but the option does not
(Python then exits with a traceback and status 1). -/
inductive CredFailure where
  | exitWithMessage : CredFailure
  | keyError : String → CredFailure
deriving Repr, DecidableEq

/-- The process exit status each failure mode produces: `exit(1)` gives 1,
and an uncaught Python exception also terminates with status 1. -/
def CredFailure.exitStatus : CredFailure → Nat
  | .exitWithMessage => 1
  | .keyError _ => 1

/-- Embedding of `read_credentials` (traffic.py lines 179-187).  `file` is
`none` when `credentials.ini` does not exist.  A missing file or missing
`[github]` section falls through to the diagnostic print and `exit(1)`; a
present section with a missing option raises `KeyError` at
`config['github']['username']` / `['token']` (username is read first). -/
def read_credentials (file : Option IniFile) : Except CredFailure (String × String) :=
  match file with
  | some cfg =>
      if cfg.has_github then
        match cfg.username with
        | none => .error (.keyError "username")
        | some u =>
            match cfg.token with
            | none => .error (.keyError "token")
            | some t => .ok (u, t)
      else .error .exitWithMessage
  | none => .error .exitWithMessage

/-- Embedding of the timeframe clamp (traffic.py lines 222-224):
`timeframe = min(args.timeframe, 14)`, with the clamp notice printed exactly
when `timeframe < args.timeframe`.  Returns the effective value and whether
the notice is printed. -/
def clampTimeframe (requested : Int) : Int × Bool :=
  let timeframe := min requested 14
  (timeframe, decide (timeframe < requested))

/-- The seven values accepted by `--sort-by` (traffic.py lines 211-214). -/
inductive SortKey where
  | views_total | views_unique | clones_total | clones_unique
  | stars | forks | combined_metrics
deriving Repr, DecidableEq

/-- The column a sort key reads from a row (numeric columns compared as
exact rationals). -/
def sortKeyFn : SortKey → Row → ℚ
  | .views_total => fun r => (r.views_total : ℚ)
  | .views_unique => fun r => (r.views_unique : ℚ)
  | .clones_total => fun r => (r.clones_total : ℚ)
  | .clones_unique => fun r => (r.clones_unique : ℚ)
  | .stars => fun r => (r.stars : ℚ)
  | .forks => fun r => (r.forks : ℚ)
  | .combined_metrics => fun r => r.combined

/-- Embedding of `traffic_df.sort_values(by=key, ascending=False)`
(traffic.py line 230).  pandas `nargsort` with `ascending=False` reverses
the column and the index array, argsorts the reversed column ascending with
the default `kind='quicksort'`, and reverses the resulting indexer; the rows
are then taken in indexer order.  That is equivalent to: reverse the rows,
sort them ascending by key, reverse the result.  numpy's quicksort runs as a
plain stable insertion sort on segments of fewer than 17 elements, which is
the ascending sort modelled here; this model is therefore exact for up to 16
rows (and is the idealized stable semantics beyond — see
`sort_values_quicksort` for the exact introsort kernel at any size). -/
def sort_values (key : Row → ℚ) (rows : List Row) : List Row :=
  ((rows.reverse).insertionSort (fun a b => key a ≤ key b)).reverse

/-! #### numpy argsort kernel (`aquicksort` from `npysort/quicksort.c.src`)

`sort_values(kind='quicksort')` dispatches to numpy's introsort for the
ascending argsort.  The functions below transcribe numpy's `aquicksort_`
(median-of-3 quicksort with `SMALL_QUICKSORT = 15` insertion-sort cutoff and
a `2*msb(n)` depth limit falling back to `aheapsort_`) on an index array
`tosort`, comparing values with strict `<` (the column values here are exact
integers/halves, so float comparison is exact).  The C loops are transcribed
with an explicit fuel argument large enough never to be exhausted on the
inputs used; pointer arithmetic becomes absolute indices into `tosort`. -/

/-- Swap two entries of the index array (`INTP_SWAP(*pi, *pj)`). -/
def npSwap (t : Array Nat) (i j : Nat) : Array Nat :=
  let a := t.getD i 0
  let b := t.getD j 0
  (t.setD i b).setD j a

/-- The `do ++pi; while (v[*pi] < vp)` scan of the partition loop. -/
def npScanUp (v : Array ℚ) (t : Array Nat) (vp : ℚ) : Nat → Nat → Nat
  | p, 0 => p + 1
  | p, fuel+1 =>
      let q := p + 1
      if v.getD (t.getD q 0) 0 < vp then npScanUp v t vp q fuel else q

/-- The `do --pj; while (vp < v[*pj])` scan of the partition loop. -/
def npScanDown (v : Array ℚ) (t : Array Nat) (vp : ℚ) : Nat → Nat → Nat
  | p, 0 => p - 1
  | p, fuel+1 =>
      let q := p - 1
      if vp < v.getD (t.getD q 0) 0 then npScanDown v t vp q fuel else q

/-- The two-pointer partition loop: scan up, scan down, swap while the
pointers have not crossed; returns the final array and `pi`. -/
def npPartitionLoop (v : Array ℚ) (vp : ℚ) : Array Nat → Nat → Nat → Nat → Array Nat × Nat
  | t, pi, _, 0 => (t, pi)
  | t, pi, pj, fuel+1 =>
      let pi' := npScanUp v t vp pi (v.size + 1)
      let pj' := npScanDown v t vp pj (v.size + 1)
      if pi' ≥ pj' then (t, pi')
      else npPartitionLoop v vp (npSwap t pi' pj') pi' pj' fuel

/-- The inner sift loop of numpy's `aheapsort_`; `base` is the absolute
index of the segment start and heap indices `i`, `j` are 1-based within the
segment (`a = tosort - 1`). -/
def npASiftDown (v : Array ℚ) (base : Nat) (tmp : Nat) (n : Nat) :
    Array Nat → Nat → Nat → Nat → Array Nat
  | t, i, _, 0 => t.setD (base + i - 1) tmp
  | t, i, j, fuel+1 =>
      if j ≤ n then
        let j1 := if j < n ∧ v.getD (t.getD (base + j - 1) 0) 0 < v.getD (t.getD (base + j) 0) 0
          then j + 1 else j
        if v.getD tmp 0 < v.getD (t.getD (base + j1 - 1) 0) 0 then
          npASiftDown v base tmp n (t.setD (base + i - 1) (t.getD (base + j1 - 1) 0))
            j1 (j1 + j1) fuel
        else t.setD (base + i - 1) tmp
      else t.setD (base + i - 1) tmp

/-- The heapify pass of `aheapsort_`: sift down each root from `n >> 1` down
to 1. -/
def npAHeapifyLoop (v : Array ℚ) (base n : Nat) : Array Nat → Nat → Array Nat
  | t, 0 => t
  | t, l+1 =>
      let li := l + 1
      let tmp := t.getD (base + li - 1) 0
      let t1 := npASiftDown v base tmp n t li (li + li) (n + 2)
      npAHeapifyLoop v base n t1 l

/-- The extraction pass of `aheapsort_`: repeatedly move the root to the end
of the shrinking heap and sift the displaced leaf down. -/
def npAHeapExtract (v : Array ℚ) (base : Nat) : Array Nat → Nat → Array Nat
  | t, 0 => t
  | t, 1 => t
  | t, m+2 =>
      let n := m + 2
      let tmp := t.getD (base + n - 1) 0
      let t1 := t.setD (base + n - 1) (t.getD base 0)
      let t2 := npASiftDown v base tmp (n - 1) t1 1 2 (n + 2)
      npAHeapExtract v base t2 (n - 1)

/-- numpy `aheapsort_` on the segment of `tosort` starting at absolute index
`base` with `n` elements. -/
def npAHeapsort (v : Array ℚ) (base n : Nat) (t : Array Nat) : Array Nat :=
  npAHeapExtract v base (npAHeapifyLoop v base n t (n / 2)) n

/-- The shift loop of the insertion sort at the bottom of `aquicksort_`:
move greater neighbours right while `vp < v[*pk]` and `pj > pl`. -/
def npAInsertShift (v : Array ℚ) (vp : ℚ) (pl : Nat) : Array Nat → Nat → Nat → Array Nat × Nat
  | t, pj, 0 => (t, pj)
  | t, pj, fuel+1 =>
      if pl < pj ∧ vp < v.getD (t.getD (pj - 1) 0) 0 then
        npAInsertShift v vp pl (t.setD pj (t.getD (pj - 1) 0)) (pj - 1) fuel
      else (t, pj)

/-- The insertion sort `aquicksort_` applies to segments of at most
`SMALL_QUICKSORT = 15` elements (`for (pi = pl + 1; pi <= pr; ++pi)`). -/
def npAInsertionGo (v : Array ℚ) (pl pr : Nat) : Array Nat → Nat → Nat → Array Nat
  | t, _, 0 => t
  | t, pi, fuel+1 =>
      if pi ≤ pr then
        let vi := t.getD pi 0
        let vp := v.getD vi 0
        let t1pj := npAInsertShift v vp pl t pi (pi + 1)
        npAInsertionGo v pl pr (t1pj.1.setD t1pj.2 vi) (pi + 1) fuel
      else t

/-- Insertion sort of the `tosort` segment `[pl, pr]` (inclusive bounds). -/
def npAInsertion (v : Array ℚ) (t : Array Nat) (pl pr : Nat) : Array Nat :=
  npAInsertionGo v pl pr t (pl + 1) (pr + 2)

/-- The main loop of `aquicksort_` on the segment `[pl, pr]`, threading the
global `depth_limit` counter (decremented once per partition; when it has
gone negative the segment is finished with `aheapsort_`).  The smaller
partition is processed first, the larger afterwards, matching the C stack
discipline. -/
def npAQuicksortSeg (v : Array ℚ) : Array Nat → Nat → Nat → Int → Nat → Array Nat × Int
  | t, _, _, depth, 0 => (t, depth)
  | t, pl, pr, depth, fuel+1 =>
      if pr - pl > 15 then
        if depth < 0 then
          (npAHeapsort v pl (pr - pl + 1) t, depth - 1)
        else
          let depth1 := depth - 1
          let pm := pl + ((pr - pl) / 2)
          let t1 := if v.getD (t.getD pm 0) 0 < v.getD (t.getD pl 0) 0 then npSwap t pm pl else t
          let t2 := if v.getD (t1.getD pr 0) 0 < v.getD (t1.getD pm 0) 0 then npSwap t1 pr pm else t1
          let t3 := if v.getD (t2.getD pm 0) 0 < v.getD (t2.getD pl 0) 0 then npSwap t2 pm pl else t2
          let vp := v.getD (t3.getD pm 0) 0
          let t4 := npSwap t3 pm (pr - 1)
          let t5pi := npPartitionLoop v vp t4 pl (pr - 1) (pr - pl + 2)
          let pi := t5pi.2
          let t6 := npSwap t5pi.1 pi (pr - 1)
          if pi - pl < pr - pi then
            let t7d := npAQuicksortSeg v t6 pl (pi - 1) depth1 fuel
            npAQuicksortSeg v t7d.1 (pi + 1) pr t7d.2 fuel
          else
            let t7d := npAQuicksortSeg v t6 (pi + 1) pr depth1 fuel
            npAQuicksortSeg v t7d.1 pl (pi - 1) t7d.2 fuel
      else
        (npAInsertion v t pl pr, depth)

/-- `npy_get_msb`: the position of the most significant set bit (the fuel
argument, instantiated at `n`, bounds the halving steps). -/
def npGetMsbAux : Nat → Nat → Nat
  | _, 0 => 0
  | n, fuel+1 => if 2 ≤ n then npGetMsbAux (n / 2) fuel + 1 else 0

/-- `npy_get_msb(num)`. -/
def npGetMsb (n : Nat) : Nat := npGetMsbAux n n

/-- Array reversal (via the underlying list, for kernel evaluability). -/
def npArrReverse {α : Type} (t : Array α) : Array α := t.toList.reverse.toArray

/-- numpy `argsort(kind='quicksort')`: run `aquicksort_` on the identity
index array with `depth_limit = 2 * msb(n)`. -/
def npAQuicksort (v : Array ℚ) : Array Nat :=
  let n := v.size
  if n = 0 then Array.range 0
  else (npAQuicksortSeg v (Array.range n) 0 (n - 1) (2 * npGetMsb n) (n + 64)).1

/-- pandas `nargsort(k, kind='quicksort', ascending=False)` on a column with
no NaNs: reverse the values and the index array, argsort the reversed values
ascending, take the original indices in that order, and reverse the
indexer. -/
def nargsortDesc (k : Array ℚ) : Array Nat :=
  let n := k.size
  let non_nans := npArrReverse k
  let non_nan_idx := npArrReverse (Array.range n)
  let p := npAQuicksort non_nans
  npArrReverse (p.map (fun i => non_nan_idx.getD i 0))

/-- `df.sort_values(by=key, ascending=False)` with the exact
`kind='quicksort'` kernel: take the rows in `nargsortDesc` order. -/
def sort_values_quicksort (key : Row → ℚ) (rows : List Row) : List Row :=
  let k := (rows.map key).toArray
  (nargsortDesc k).toList.filterMap (fun i => rows.get? i)

/-- A row named `s` with one total view and `combined_metrics` 1: seventeen
of these (distinct names, equal sort keys) exercise numpy's quicksort
partition, whose cutoff is at segments of 17 or more elements. -/
def tieRow (s : String) : Row :=
  { repository := s, views_total := 1, views_unique := 0, clones_total := 0
    clones_unique := 0, stars := 0, forks := 0, date_range := none, combined := 1 }

/-- Seventeen rows with pairwise-distinct names and all sort keys equal. -/
def rows17 : List Row :=
  [tieRow "r00", tieRow "r01", tieRow "r02", tieRow "r03", tieRow "r04",
   tieRow "r05", tieRow "r06", tieRow "r07", tieRow "r08", tieRow "r09",
   tieRow "r10", tieRow "r11", tieRow "r12", tieRow "r13", tieRow "r14",
   tieRow "r15", tieRow "r16"]

/-- Embedding of the `--hide-empty` filter (traffic.py line 234):
`traffic_df[traffic_df['combined_metrics'] > 0]`. -/
def hideEmptyFilter (rows : List Row) : List Row :=
  rows.filter (fun r => 0 < r.combined)

/-- Embedding of the `--no-zero-views` filter (traffic.py line 238):
`traffic_df[traffic_df['views_total'] > 0]`. -/
def noZeroViewsFilter (rows : List Row) : List Row :=
  rows.filter (fun r => 0 < r.views_total)

/-- The display-relevant CLI flags. -/
structure Args where
  hide_empty : Bool
  no_zero_views : Bool
  sort_by : SortKey
deriving Repr, DecidableEq

/-- The post-fetch pipeline of `__main__` (traffic.py lines 229-238): sort by
the chosen key, then apply the two optional filters in order. -/
def processRows (args : Args) (df : List Row) : List Row :=
  let sorted := sort_values (sortKeyFn args.sort_by) df
  let f1 := if args.hide_empty then hideEmptyFilter sorted else sorted
  if args.no_zero_views then noZeroViewsFilter f1 else f1

/-- One row of the CSV file (traffic.py line 246):
`traffic_df.drop('combined_metrics', axis=1)` keeps every column, including
`date_range`, except the derived metric. -/
structure CsvRow where
  repository : String
  views_total : Nat
  views_unique : Nat
  clones_total : Nat
  clones_unique : Nat
  stars : Nat
  forks : Nat
  date_range : Option String
deriving Repr, DecidableEq

/-- The CSV export writes the current (sorted and filtered) DataFrame minus
the `combined_metrics` column. -/
def csvExport (rows : List Row) : List CsvRow :=
  rows.map (fun r =>
    { repository := r.repository
      views_total := r.views_total
      views_unique := r.views_unique
      clones_total := r.clones_total
      clones_unique := r.clones_unique
      stars := r.stars
      forks := r.forks
      date_range := r.date_range })

/-- One row of the on-screen table (traffic.py lines 271-281): the
`combined_metrics` and `date_range` columns are dropped and a leading `#`
position column `range(1, len+1)` is inserted. -/
structure DisplayRow where
  pos : Nat
  repository : String
  views_total : Nat
  views_unique : Nat
  clones_total : Nat
  clones_unique : Nat
  stars : Nat
  forks : Nat
deriving Repr, DecidableEq

/-- The on-screen table built from the current (sorted and filtered)
DataFrame. -/
def displayTable (rows : List Row) : List DisplayRow :=
  List.zipWith
    (fun pos r =>
      { pos := pos
        repository := r.repository
        views_total := r.views_total
        views_unique := r.views_unique
        clones_total := r.clones_total
        clones_unique := r.clones_unique
        stars := r.stars
        forks := r.forks })
    (List.range' 1 rows.length) rows

/-! ### Sample inputs (used by witnesses and counterexamples) -/

/-- A sample repository with 4 stars and 2 forks. -/
def repo1 : Repo :=
  { name := "r1", stargazers_count := 4, forks_count := 2 }

/-- A successful views response: 5 views, 3 unique, no per-day breakdown. -/
def respViews : HttpResponse :=
  { status := 200
    body := { count := some 5, uniques := some 3, views := none } }

/-- A successful clones response: 2 clones, 1 unique, no breakdown. -/
def respClones : HttpResponse :=
  { status := 200, body := { count := some 2, uniques := some 1, views := none } }

/-- An environment with a passing auth check and a one-repository listing. -/
def env1 : Env :=
  { rate_status := 200, repos_body := .list [repo1]
    views_response := fun _ => respViews, clones_response := fun _ => respClones }

/-- An environment whose bulk listing fails: the auth check passes but the
listing returns an error object (for example a 404 body). -/
def envObj : Env :=
  { rate_status := 200, repos_body := .errorObj "Not Found"
    views_response := fun _ => respViews, clones_response := fun _ => respClones }

/-- An environment with a passing auth check and an empty repository
listing. -/
def envEmpty : Env :=
  { rate_status := 200, repos_body := .list []
    views_response := fun _ => respViews, clones_response := fun _ => respClones }

/-- An environment with one repository whose traffic calls both fail with
404, and whose repository carries zero stars and forks: every metric
degrades to zero. -/
def envZero : Env :=
  { rate_status := 200
    repos_body := .list [{ name := "z", stargazers_count := 0, forks_count := 0 }]
    views_response := fun _ => { status := 404, body := { count := none, uniques := none, views := none } }
    clones_response := fun _ => { status := 404, body := { count := none, uniques := none, views := none } } }

/-- The record the sample repository's fetch enqueues under `env1`. -/
def rec1 : Record :=
  { repository := "r1", views_total := 5, views_unique := 3, clones_total := 2
    clones_unique := 1, stars := 4, forks := 2, date_range := none }

/-- The all-zero record produced under `envZero`. -/
def recZ : Record :=
  { repository := "z", views_total := 0, views_unique := 0, clones_total := 0
    clones_unique := 0, stars := 0, forks := 0, date_range := none }

/-- A row whose `combined_metrics` value is 1 (one view, nothing else). -/
def rowA : Row :=
  { repository := "alpha", views_total := 1, views_unique := 0, clones_total := 0
    clones_unique := 0, stars := 0, forks := 0, date_range := none, combined := 1 }

/-- A second row with the same `combined_metrics` value 1 but a different
name, placed after `rowA` in input order. -/
def rowB : Row :=
  { repository := "beta", views_total := 1, views_unique := 0, clones_total := 0
    clones_unique := 0, stars := 0, forks := 0, date_range := none, combined := 1 }

/-- An all-zero row: every count is 0 and `combined_metrics` is 0. -/
def rowZ : Row :=
  { repository := "zeta", views_total := 0, views_unique := 0, clones_total := 0
    clones_unique := 0, stars := 0, forks := 0, date_range := none, combined := 0 }

/-! ### Helper lemmas -/

/-- Reading a list back at indices `0, 1, ..., length-1` returns the list. -/
theorem filterMap_get_range {α : Type} (l : List α) :
    (List.range l.length).filterMap (fun i => l.get? i) = l := by
  induction l with
  | nil => simp
  | cons a t ih =>
      rw [List.length_cons, List.range_succ_eq_map, List.filterMap_cons, List.filterMap_map]
      have h1 : ((fun i => (a :: t).get? i) ∘ Nat.succ) = fun i => t.get? i := by
        funext i
        simp
      simp only [List.get?_cons_zero, h1, ih]

/-- Draining the queue in any completion order returns a permutation of the
enqueued records. -/
theorem collectQueue_perm {α : Type} (items : List α) (order : List Nat)
    (h : order.Perm (List.range items.length)) :
    (collectQueue items order).Perm items := by
  have h2 := h.filterMap (fun i => items.get? i)
  rwa [filterMap_get_range] at h2

/-- Draining an empty queue yields nothing, whatever the order list is. -/
theorem collectQueue_nil {α : Type} (order : List Nat) :
    collectQueue ([] : List α) order = [] := by
  simp [collectQueue, List.filterMap_eq_nil_iff]

/-- Characterisation of the successful path of `get_repo_traffic`: with a
passing rate-limit check, a list-shaped listing body with at least one
repository, and the queue drained in any completion order, the result is
`ok` with one row per repository (a permutation of the per-repository
fetch results with the derived column attached). -/
theorem get_repo_traffic_ok_spec {env : Env} {repos : List Repo} {order : List Nat}
    (hrate : env.rate_status = 200) (hbody : env.repos_body = .list repos)
    (hne : repos ≠ []) (horder : order.Perm (List.range repos.length)) :
    ∃ rows : List Row,
      get_repo_traffic env order = .ok rows ∧
      rows.length = repos.length ∧
      rows.Perm (repos.map (fun repo =>
        ({ toRecord := fetchRecord env repo,
           combined := combined_metrics_formula (fetchRecord env repo) } : Row))) := by
  have hlen : (repos.map (fetchRecord env)).length = repos.length := List.length_map _ _
  have hperm : (collectQueue (repos.map (fetchRecord env)) order).Perm
      (repos.map (fetchRecord env)) := by
    refine collectQueue_perm _ _ ?_
    rwa [hlen]
  have hnot : ¬ (collectQueue (repos.map (fetchRecord env)) order).isEmpty = true := by
    rw [List.isEmpty_iff]
    intro hnil
    rw [hnil] at hperm
    exact hne (List.map_eq_nil_iff.mp hperm.symm.eq_nil)
  refine ⟨(collectQueue (repos.map (fetchRecord env)) order).map
      (fun r => { toRecord := r, combined := combined_metrics_formula r }), ?_, ?_, ?_⟩
  · rw [get_repo_traffic, if_neg (by simp [hrate]), hbody]
    simp only [hnot, if_false, Bool.false_eq_true]
  · rw [List.length_map, hperm.length_eq, hlen]
  · have h3 := hperm.map (fun r => ({ toRecord := r, combined := combined_metrics_formula r } : Row))
    rwa [List.map_map] at h3

/-- With a passing rate-limit check but an empty repository listing,
`get_repo_traffic` raises: `pd.DataFrame([])` has no columns, so the
`combined_metrics` assignment fails with `KeyError: 'views_total'`. -/
theorem get_repo_traffic_empty {env : Env} (order : List Nat)
    (hrate : env.rate_status = 200) (hbody : env.repos_body = .list []) :
    get_repo_traffic env order = .error (.pyError "KeyError: views_total") := by
  rw [get_repo_traffic, if_neg (by simp [hrate]), hbody]
  simp [collectQueue_nil]

/-- With a passing rate-limit check but an error-object listing body,
`get_repo_traffic` raises `KeyError: 0` at `repos[0]`. -/
theorem get_repo_traffic_errorObj {env : Env} (order : List Nat) (msg : String)
    (hrate : env.rate_status = 200) (hbody : env.repos_body = .errorObj msg) :
    get_repo_traffic env order = .error (.pyError "KeyError: 0") := by
  rw [get_repo_traffic, if_neg (by simp [hrate]), hbody]

/-! ### Claim theorems -/

/-- C1: the dispatch-and-collect phase of `get_repo_traffic` emits exactly one
record per listed repository, in every completion order, with degraded
records included — but only when at least one repository is listed.  For an
empty listing the claim fails on the code: `pd.DataFrame([])` has no columns
and the `combined_metrics` assignment raises `KeyError: 'views_total'`. -/
theorem coordinator_record_count (env : Env) (repos : List Repo) (order : List Nat)
    (hrate : env.rate_status = 200) (hbody : env.repos_body = .list repos)
    (horder : order.Perm (List.range repos.length)) :
    (repos = [] → get_repo_traffic env order = .error (.pyError "KeyError: views_total"))
  ∧ (repos ≠ [] → ∃ rows : List Row,
      get_repo_traffic env order = .ok rows ∧
      rows.length = repos.length ∧
      rows.Perm (repos.map (fun repo =>
        ({ toRecord := fetchRecord env repo,
           combined := combined_metrics_formula (fetchRecord env repo) } : Row)))) := by
  constructor
  · intro hnil
    exact get_repo_traffic_empty order hrate (hnil ▸ hbody)
  · intro hne
    exact get_repo_traffic_ok_spec hrate hbody hne horder

/-- C1 witness: a one-repository listing with completion order `[0]` yields
exactly one row; a zero-repository listing crashes instead of yielding zero
rows. -/
theorem coordinator_record_count_witness :
    (∃ rows : List Row,
      get_repo_traffic env1 [0] = .ok rows ∧
      rows.length = [repo1].length ∧
      rows.Perm ([repo1].map (fun repo =>
        ({ toRecord := fetchRecord env1 repo,
           combined := combined_metrics_formula (fetchRecord env1 repo) } : Row))))
  ∧ get_repo_traffic envEmpty [] = .error (.pyError "KeyError: views_total") := by
  constructor
  · exact (coordinator_record_count env1 [repo1] [0] rfl rfl (List.Perm.refl _)).2
      (List.cons_ne_nil _ _)
  · exact (coordinator_record_count envEmpty [] [] rfl rfl (List.Perm.refl _)).1 rfl

/-- C3 (amended): per-repository traffic failures are degraded locally, and
a non-empty repository-list body completes without a crash whatever the
per-repository statuses in `env` are; but the bulk-listing response's status
is never checked, so a non-200 listing (whose JSON body is an error object)
surfaces as an uncaught `KeyError: 0` — a crash — rather than degraded
data; and an empty repository-list body also crashes, with
`KeyError: 'views_total'` at the `combined_metrics` assignment (the C1
bug). -/
theorem listing_failure_handling (env : Env) (order : List Nat)
    (hrate : env.rate_status = 200) :
    (∀ msg, env.repos_body = .errorObj msg →
        get_repo_traffic env order = .error (.pyError "KeyError: 0"))
  ∧ (∀ repos, env.repos_body = .list repos → repos = [] →
        get_repo_traffic env order = .error (.pyError "KeyError: views_total"))
  ∧ (∀ repos, env.repos_body = .list repos → repos ≠ [] →
        order.Perm (List.range repos.length) →
        ∃ rows : List Row, get_repo_traffic env order = .ok rows) := by
  refine ⟨?_, ?_, ?_⟩
  · intro msg hbody
    exact get_repo_traffic_errorObj order msg hrate hbody
  · intro repos hbody hnil
    exact get_repo_traffic_empty order hrate (hnil ▸ hbody)
  · intro repos hbody hne horder
    obtain ⟨rows, hok, -, -⟩ := get_repo_traffic_ok_spec hrate hbody hne horder
    exact ⟨rows, hok⟩

/-- C3 counterexample: with a passing auth check, a failed bulk listing
(error-object body, as any non-200 GitHub response carries) makes
`get_repo_traffic` crash with an uncaught `KeyError` instead of degrading —
refuting the claim that only the two credential/auth cases are fatal. -/
theorem listing_failure_crash_counterexample :
    envObj.rate_status = 200 ∧
    get_repo_traffic envObj [] = .error (.pyError "KeyError: 0") :=
  ⟨rfl, get_repo_traffic_errorObj [] "Not Found" rfl rfl⟩

/-- C3 witness: a successful one-repository listing under which the run
completes without a crash, and an empty listing that crashes at the
`combined_metrics` assignment. -/
theorem listing_failure_handling_witness :
    (∃ rows : List Row, get_repo_traffic env1 [0] = .ok rows)
  ∧ get_repo_traffic envEmpty [] = .error (.pyError "KeyError: views_total") :=
  ⟨(listing_failure_handling env1 [0] rfl).2.2 [repo1] rfl (List.cons_ne_nil _ _)
      (List.Perm.refl _),
   (listing_failure_handling envEmpty [] rfl).2.1 [] rfl rfl⟩

/-- C5: every row of the DataFrame returned by `get_repo_traffic` carries
`combined_metrics` equal to the weighted sum
`views_total*1.0 + views_unique*1.5 + clones_total*2.0 + clones_unique*3.0 +
stars*0.5 + forks*1.0` of its own counts; the column is assigned once from
the counts and never mutated afterwards. -/
theorem combined_metric_invariant (env : Env) (order : List Nat) (rows : List Row)
    (r : Row) (hok : get_repo_traffic env order = .ok rows) (hr : r ∈ rows) :
    r.combined = (r.views_total : ℚ) * 1.0 + (r.views_unique : ℚ) * 1.5 +
      (r.clones_total : ℚ) * 2.0 + (r.clones_unique : ℚ) * 3.0 +
      (r.stars : ℚ) * 0.5 + (r.forks : ℚ) * 1.0 := by
  rw [get_repo_traffic] at hok
  split at hok
  · exact absurd hok (by simp)
  · split at hok
    · exact absurd hok (by simp)
    · dsimp only at hok
      split at hok
      · exact absurd hok (by simp)
      · rw [Except.ok.injEq] at hok
        subst hok
        obtain ⟨rec, -, rfl⟩ := List.mem_map.mp hr
        rfl

/-- C5 witness: under `envZero` the single all-zero record has
`combined_metrics` equal to the weighted sum, which is 0. -/
theorem combined_metric_invariant_witness :
    (({ toRecord := recZ, combined := combined_metrics_formula recZ } : Row).combined =
      ((recZ.views_total : ℚ) * 1.0 + (recZ.views_unique : ℚ) * 1.5 +
       (recZ.clones_total : ℚ) * 2.0 + (recZ.clones_unique : ℚ) * 3.0 +
       (recZ.stars : ℚ) * 0.5 + (recZ.forks : ℚ) * 1.0))
  ∧ (({ toRecord := recZ, combined := combined_metrics_formula recZ } : Row).combined = 0) := by
  constructor
  · exact combined_metric_invariant envZero [0]
      [{ toRecord := recZ, combined := combined_metrics_formula recZ }] _ rfl
      (List.mem_singleton.mpr rfl)
  · norm_num [combined_metrics_formula, recZ]

/-- The output of `sort_values` is sorted with non-increasing key values. -/
theorem sort_values_pairwise (key : Row → ℚ) (rows : List Row) :
    (sort_values key rows).Pairwise (fun a b => key b ≤ key a) := by
  haveI htot : IsTotal Row (fun a b => key a ≤ key b) := ⟨fun a b => le_total (key a) (key b)⟩
  haveI htrans : IsTrans Row (fun a b => key a ≤ key b) := ⟨fun a b c => le_trans⟩
  have hs := List.sorted_insertionSort (fun a b => key a ≤ key b) rows.reverse
  rw [sort_values, List.pairwise_reverse]
  exact hs

/-- The weighted sum of non-negative counts is non-negative. -/
theorem combined_metrics_formula_nonneg (r : Record) : 0 ≤ combined_metrics_formula r := by
  unfold combined_metrics_formula
  positivity

/-- C2 (amended): sorting by any of the seven keys yields a permutation of
the input rows whose key values are non-increasing.  Equal-key rows keep
their original input order only while numpy's quicksort stays in its
insertion-sort regime (fewer than 17 rows, the regime this model is exact
for); for 17 or more rows the default `kind='quicksort'` partition scrambles
ties, so the stable-sort part of the claim fails (see the
counterexample). -/
theorem sort_values_descending (k : SortKey) (rows : List Row) :
    (sort_values (sortKeyFn k) rows).Perm rows ∧
    (sort_values (sortKeyFn k) rows).Pairwise
      (fun a b => sortKeyFn k b ≤ sortKeyFn k a) :=
  ⟨(List.reverse_perm _).trans ((List.perm_insertionSort _ _).trans (List.reverse_perm rows)),
   sort_values_pairwise _ rows⟩

set_option maxRecDepth 40000 in
/-- C2 counterexample: seventeen rows with pairwise-distinct names and equal
sort-key values come out of the exact `kind='quicksort'` sort in a different
order (a stable descending sort of all-equal keys would return them
unchanged), refuting the ties-in-original-input-order part of the claim
while still being a permutation of the input. -/
theorem sort_values_not_stable_counterexample :
    (∀ r ∈ rows17, sortKeyFn .combined_metrics r = 1) ∧
    sort_values_quicksort (sortKeyFn .combined_metrics) rows17 ≠ rows17 ∧
    (sort_values_quicksort (sortKeyFn .combined_metrics) rows17).Perm rows17 := by
  decide

/-- C4: `read_credentials` returns a `(username, token)` pair exactly when
the file exists, has the `[github]` section, and has both options; in every
other case it terminates the process with a non-zero exit status (either the
diagnostic `exit(1)` or an uncaught `KeyError`, which also exits with status
1) and never yields partial or defaulted credentials. -/
theorem read_credentials_spec (file : Option IniFile) :
    (∀ u t, read_credentials file = .ok (u, t) ↔
        ∃ cfg, file = some cfg ∧ cfg.has_github = true ∧
          cfg.username = some u ∧ cfg.token = some t)
  ∧ (∀ f, read_credentials file = .error f → f.exitStatus ≠ 0) := by
  refine ⟨fun u t => ?_, fun f _ => by cases f <;> simp [CredFailure.exitStatus]⟩
  obtain - | ⟨g, ou, ot⟩ := file
  · simp [read_credentials]
  · cases g <;> rcases ou with - | u' <;> rcases ot with - | t' <;>
      simp [read_credentials]

/-- C4 witness: a complete file yields its stored pair, and a missing file
terminates with a non-zero status. -/
theorem read_credentials_spec_witness :
    read_credentials (some { has_github := true, username := some "alice", token := some "tok" })
      = .ok ("alice", "tok")
  ∧ CredFailure.exitWithMessage.exitStatus ≠ 0 := by
  constructor
  · exact ((read_credentials_spec
      (some { has_github := true, username := some "alice", token := some "tok" })).1
        "alice" "tok").2 ⟨_, rfl, rfl, rfl, rfl⟩
  · exact (read_credentials_spec none).2 .exitWithMessage rfl

/-- C7: on rows whose `combined_metrics` really is the weighted sum of their
counts (as every row produced by `get_repo_traffic` is), the `hide-empty`
filter removes exactly the rows with `combined_metrics = 0`, the
`no-zero-views` filter removes exactly the rows with `views_total = 0`
(each keeping the others in order), and the two filters commute. -/
theorem filters_exact (rows : List Row)
    (h : ∀ r ∈ rows, r.combined = combined_metrics_formula r.toRecord) :
    hideEmptyFilter rows = rows.filter (fun r => decide (r.combined ≠ 0))
  ∧ noZeroViewsFilter rows = rows.filter (fun r => decide (r.views_total ≠ 0))
  ∧ hideEmptyFilter (noZeroViewsFilter rows) = noZeroViewsFilter (hideEmptyFilter rows) := by
  refine ⟨?_, ?_, ?_⟩
  · refine List.filter_congr (fun r hr => ?_)
    have hnn : 0 ≤ r.combined := (h r hr) ▸ combined_metrics_formula_nonneg r.toRecord
    have : (0 < r.combined ↔ r.combined ≠ 0) := hnn.lt_iff_ne.trans ne_comm
    simp [this]
  · refine List.filter_congr (fun r _ => ?_)
    have : (0 < r.views_total ↔ r.views_total ≠ 0) := by omega
    simp [this]
  · rw [hideEmptyFilter, noZeroViewsFilter, hideEmptyFilter, noZeroViewsFilter,
      List.filter_filter, List.filter_filter]
    exact List.filter_congr (fun r _ => by rw [Bool.and_comm])

/-- C7 witness: on a list with one all-zero row and one row with a single
view, each filter removes exactly the zero row. -/
theorem filters_exact_witness :
    hideEmptyFilter [rowZ, rowA] = [rowZ, rowA].filter (fun r => decide (r.combined ≠ 0))
  ∧ noZeroViewsFilter [rowZ, rowA] = [rowZ, rowA].filter (fun r => decide (r.views_total ≠ 0))
  ∧ hideEmptyFilter (noZeroViewsFilter [rowZ, rowA])
      = noZeroViewsFilter (hideEmptyFilter [rowZ, rowA]) :=
  filters_exact [rowZ, rowA] (by
    intro r hr
    rcases List.mem_cons.mp hr with rfl | hr2
    · norm_num [combined_metrics_formula, rowZ]
    · rcases List.mem_singleton.mp hr2 with rfl
      norm_num [combined_metrics_formula, rowA])

/-- C8: a requested timeframe of 30 days is clamped to the effective maximum
14 with the clamp notice printed; a requested timeframe of 7 days passes
through unchanged with no notice. -/
theorem timeframe_clamp_spec :
    clampTimeframe 30 = (14, true) ∧ clampTimeframe 7 = (7, false) := by
  decide

/-- C6: a non-200 views (resp. clones) response degrades that family to
count 0 and uniques 0 with the `❌` failure indicator, without raising
(`fetch_repo_traffic` is total); with 200 on both calls the record's fields
equal the response counts and uniques exactly and both indicators are
`✅`. -/
theorem fetch_degrade_spec (repo : Repo) (vr vc : HttpResponse) :
    (vr.status ≠ 200 →
        (fetch_repo_traffic repo vr vc).record.views_total = 0 ∧
        (fetch_repo_traffic repo vr vc).record.views_unique = 0 ∧
        (fetch_repo_traffic repo vr vc).views_status = "❌")
  ∧ (vc.status ≠ 200 →
        (fetch_repo_traffic repo vr vc).record.clones_total = 0 ∧
        (fetch_repo_traffic repo vr vc).record.clones_unique = 0 ∧
        (fetch_repo_traffic repo vr vc).clones_status = "❌")
  ∧ (vr.status = 200 → vc.status = 200 → ∀ a b c d,
        vr.body.count = some a → vr.body.uniques = some b →
        vc.body.count = some c → vc.body.uniques = some d →
        (fetch_repo_traffic repo vr vc).record.views_total = a ∧
        (fetch_repo_traffic repo vr vc).record.views_unique = b ∧
        (fetch_repo_traffic repo vr vc).record.clones_total = c ∧
        (fetch_repo_traffic repo vr vc).record.clones_unique = d ∧
        (fetch_repo_traffic repo vr vc).views_status = "✅" ∧
        (fetch_repo_traffic repo vr vc).clones_status = "✅") := by
  obtain ⟨vst, vcnt, vunq, vvw⟩ := vr
  obtain ⟨cst, ccnt, cunq, cvw⟩ := vc
  refine ⟨fun hv => ?_, fun hc => ?_, fun hv hc a b c d ha hb hcc hd => ?_⟩
  · simp_all [fetch_repo_traffic]
  · simp_all [fetch_repo_traffic]
  · dsimp only at hv hc ha hb hcc hd
    subst hv hc ha hb hcc hd
    simp [fetch_repo_traffic]

/-- C6 witness: a 404 views call degrades to 0/0 with `❌`; a double-200
fetch reports the response counts exactly. -/
theorem fetch_degrade_spec_witness :
    ((fetch_repo_traffic repo1 { status := 404, body := ⟨some 9, some 9, none⟩ } respClones).record.views_total = 0 ∧
     (fetch_repo_traffic repo1 { status := 404, body := ⟨some 9, some 9, none⟩ } respClones).record.views_unique = 0 ∧
     (fetch_repo_traffic repo1 { status := 404, body := ⟨some 9, some 9, none⟩ } respClones).views_status = "❌")
  ∧ ((fetch_repo_traffic repo1 respViews respClones).record.views_total = 5 ∧
     (fetch_repo_traffic repo1 respViews respClones).record.views_unique = 3 ∧
     (fetch_repo_traffic repo1 respViews respClones).record.clones_total = 2 ∧
     (fetch_repo_traffic repo1 respViews respClones).record.clones_unique = 1 ∧
     (fetch_repo_traffic repo1 respViews respClones).views_status = "✅" ∧
     (fetch_repo_traffic repo1 respViews respClones).clones_status = "✅") := by
  constructor
  · exact (fetch_degrade_spec repo1 { status := 404, body := ⟨some 9, some 9, none⟩ } respClones).1
      (by decide)
  · exact (fetch_degrade_spec repo1 respViews respClones).2.2 rfl rfl 5 3 2 1 rfl rfl rfl rfl

/-- A zipWith whose function ignores its first argument is a map over the
second list, when the lengths agree. -/
theorem zipWith_proj {α β γ : Type} (g : α → β → γ) (f : β → γ) (l1 : List α) (l2 : List β)
    (h : l1.length = l2.length) (hg : ∀ a b, g a b = f b) :
    List.zipWith g l1 l2 = l2.map f := by
  induction l2 generalizing l1 with
  | nil => cases l1 <;> simp_all
  | cons b t ih =>
      cases l1 with
      | nil => simp at h
      | cons a s =>
          simp only [List.zipWith_cons_cons, List.map_cons, hg]
          exact congrArg _ (ih s (by simpa using h))

/-- C9: the CSV export and the on-screen table are built from the same
sorted-and-filtered row list: they have the same length, the same
repositories in the same order, and the CSV keeps each row's `date_range`
(its `CsvRow` shape has every column except the derived `combined_metrics`,
which only the internal `Row` carries). -/
theorem csv_matches_display (args : Args) (df : List Row) :
    (csvExport (processRows args df)).map (fun c => c.repository)
      = (displayTable (processRows args df)).map (fun d => d.repository)
  ∧ (csvExport (processRows args df)).length = (displayTable (processRows args df)).length
  ∧ (csvExport (processRows args df)).map (fun c => c.date_range)
      = (processRows args df).map (fun r => r.date_range) := by
  refine ⟨?_, ?_, ?_⟩
  · rw [csvExport, displayTable, List.map_map, List.map_zipWith,
      zipWith_proj _ (fun r : Row => r.repository) _ _
        (by rw [List.length_range']) (fun a b => rfl)]
    simp [Function.comp]
  · simp [csvExport, displayTable, List.length_zipWith, List.length_range']
  · rw [csvExport, List.map_map]
    simp [Function.comp]

/-- C10: on a 200 views/clones response whose body lacks `count` or
`uniques`, the record silently carries 0 for that field; and `date_range` is
`None` exactly when the 200 views body has no non-empty `views` list,
otherwise it is built from the first and last entries' timestamp dates. -/
theorem fetch_missing_keys_daterange (repo : Repo) (vr vc : HttpResponse)
    (hv : vr.status = 200) :
    (vr.body.count = none → (fetch_repo_traffic repo vr vc).record.views_total = 0)
  ∧ (vr.body.uniques = none → (fetch_repo_traffic repo vr vc).record.views_unique = 0)
  ∧ (vc.status = 200 → vc.body.count = none →
        (fetch_repo_traffic repo vr vc).record.clones_total = 0)
  ∧ (vc.status = 200 → vc.body.uniques = none →
        (fetch_repo_traffic repo vr vc).record.clones_unique = 0)
  ∧ ((fetch_repo_traffic repo vr vc).record.date_range = none ↔
        (vr.body.views = none ∨ vr.body.views = some []))
  ∧ (∀ e es, vr.body.views = some (e :: es) →
        (fetch_repo_traffic repo vr vc).record.date_range =
          some (dateOf e.timestamp ++ " to " ++
                dateOf ((e :: es).getLast (List.cons_ne_nil e es)).timestamp)) := by
  obtain ⟨vst, vcnt, vunq, vvw⟩ := vr
  obtain ⟨cst, ccnt, cunq, cvw⟩ := vc
  dsimp only at hv
  subst hv
  refine ⟨fun h => ?_, fun h => ?_, fun hc h => ?_, fun hc h => ?_, ?_, fun e es h => ?_⟩
  · dsimp only at h
    subst h
    simp [fetch_repo_traffic]
  · dsimp only at h
    subst h
    simp [fetch_repo_traffic]
  · dsimp only at hc h
    subst hc h
    simp [fetch_repo_traffic]
  · dsimp only at hc h
    subst hc h
    simp [fetch_repo_traffic]
  · dsimp only
    rcases vvw with - | l
    · simp [fetch_repo_traffic]
    · rcases l with - | ⟨e, es⟩
      · simp [fetch_repo_traffic]
      · simp [fetch_repo_traffic]
  · dsimp only at h
    subst h
    simp [fetch_repo_traffic]

/-- C10 witness: a 200 views response with an empty body dict records 0
views, 0 uniques and no date range. -/
theorem fetch_missing_keys_daterange_witness :
    ((fetch_repo_traffic repo1 { status := 200, body := ⟨none, none, none⟩ } respClones).record.views_total = 0)
  ∧ ((fetch_repo_traffic repo1 { status := 200, body := ⟨none, none, none⟩ } respClones).record.views_unique = 0)
  ∧ ((fetch_repo_traffic repo1 { status := 200, body := ⟨none, none, none⟩ } respClones).record.date_range = none) := by
  have h := fetch_missing_keys_daterange repo1 { status := 200, body := ⟨none, none, none⟩ } respClones rfl
  exact ⟨h.1 rfl, h.2.1 rfl, h.2.2.2.2.1.mpr (Or.inl rfl)⟩

end Traffic
